import Mathlib

/-!
Shallow embedding of the expression engine in `src/main.cpp` (namespace
`engine`): a pull-based tokenizer, a recursive-descent parser building an
AST, and a tree-walking evaluator.

Modelling conventions:
* The input string is a list of byte values (`List Nat`, each < 256).
  `std::string::operator[]` at the one-past-the-end index yields `'\0'`;
  we model every out-of-range read as 0, which agrees with the C++ on all
  reachable states (the engine never reads more than one past the end).
* `char` is signed in the C++ build, so `symbol < 0` holds exactly for
  bytes ≥ 0x80; `next_char` maps those to the `'\0'` sentinel.
* C++ `double` is modelled exactly: a rational number extended with the
  IEEE special values `+inf`, `-inf`, `NaN` (`Val`). All numeric literals
  and arithmetic appearing in the verified properties are exactly
  representable in binary floating point, so the exact model agrees with
  IEEE double arithmetic there. Signed zero is not modelled.
* `strtod` is modelled for the strings the scanner can produce (digits
  and dots only): it converts the longest prefix of the form
  `digits [ '.' digits ]` and returns 0 when nothing converts.
* The C++ `while` loops of the tokenizer and the recursion of the parser
  are given explicit fuel so that every function is structurally
  recursive and kernel-reducible. The tokenizer loops receive fuel
  `input.length + 2`, enough for every reachable state (each iteration
  advances the cursor, and past the end the current character becomes the
  sentinel). The parser fuel only runs out on inputs far longer than the
  fuel supplied by `evaluate`, which is generous (each parser step either
  consumes a token or moves one grammar level down).
* Thrown `std::logic_error`s become `Except.error` values of `EvalError`;
  the lex error records the offending character (the C++ code prints it).
-/

/-- Token tags, mirroring `enum Token` in the source. -/
inductive Token
  | addition
  | subtraction
  | multiplication
  | division
  | opened_parentheses
  | closed_parentheses
  | number
  | eof
deriving DecidableEq, Repr

/-- The typed errors the engine can raise.  `lexError` corresponds to the
`"Not supported type of operator"` throw (recording the offending
character), `trailingInput` to `"Not understandable expression"`,
`missingParenthesis` to `"Missing parentheses"`, `unexpectedToken` to
`"Unexpect token"`.  `outOfFuel` is an artifact of the fueled model and
never occurs for the fuel supplied by `evaluate`. -/
inductive EvalError
  | lexError (c : Nat)
  | trailingInput
  | missingParenthesis
  | unexpectedToken (t : Token)
  | outOfFuel
deriving DecidableEq, Repr

/-- C `isdigit` on the engine's character codes. -/
def isdigit (c : Nat) : Bool :=
  48 ≤ c && c ≤ 57

/-- IEEE double modelled exactly: a rational, or one of the special
values produced by division. -/
inductive Val
  | finite (q : ℚ)
  | posInf
  | negInf
  | nan
deriving DecidableEq, Repr

/-- Negation (`[](double a) { return -a; }`). -/
def Val.neg : Val → Val
  | finite q => finite (-q)
  | posInf => negInf
  | negInf => posInf
  | nan => nan

/-- IEEE addition on the model. -/
def Val.add : Val → Val → Val
  | nan, _ => nan
  | _, nan => nan
  | posInf, negInf => nan
  | negInf, posInf => nan
  | posInf, _ => posInf
  | _, posInf => posInf
  | negInf, _ => negInf
  | _, negInf => negInf
  | finite a, finite b => finite (a + b)

/-- IEEE subtraction on the model. -/
def Val.sub : Val → Val → Val
  | nan, _ => nan
  | _, nan => nan
  | posInf, posInf => nan
  | negInf, negInf => nan
  | posInf, _ => posInf
  | _, posInf => negInf
  | negInf, _ => negInf
  | _, negInf => posInf
  | finite a, finite b => finite (a - b)

/-- IEEE multiplication on the model. -/
def Val.mul : Val → Val → Val
  | nan, _ => nan
  | _, nan => nan
  | posInf, posInf => posInf
  | posInf, negInf => negInf
  | negInf, posInf => negInf
  | negInf, negInf => posInf
  | posInf, finite b => if 0 < b then posInf else if b < 0 then negInf else nan
  | finite a, posInf => if 0 < a then posInf else if a < 0 then negInf else nan
  | negInf, finite b => if 0 < b then negInf else if b < 0 then posInf else nan
  | finite a, negInf => if 0 < a then negInf else if a < 0 then posInf else nan
  | finite a, finite b => finite (a * b)

/-- IEEE division on the model (positive zero only): a nonzero finite
value divided by zero gives a signed infinity, `0/0` gives `NaN`,
`inf/inf` gives `NaN`, finite over infinite gives zero. -/
def Val.div : Val → Val → Val
  | nan, _ => nan
  | _, nan => nan
  | posInf, posInf => nan
  | posInf, negInf => nan
  | negInf, posInf => nan
  | negInf, negInf => nan
  | posInf, finite b => if b < 0 then negInf else posInf
  | negInf, finite b => if b < 0 then posInf else negInf
  | finite _, posInf => finite 0
  | finite _, negInf => finite 0
  | finite a, finite b =>
      if b = 0 then
        if 0 < a then posInf else if a < 0 then negInf else nan
      else finite (a / b)

/-- The four binary operator lambdas of the source, as a closed enum
(the design the spec prescribes for the captured function values). -/
inductive BinOp
  | add
  | sub
  | mul
  | div
deriving DecidableEq, Repr

/-- Interpret a binary operator on values. -/
def BinOp.apply : BinOp → Val → Val → Val
  | add, a, b => Val.add a b
  | sub, a, b => Val.sub a b
  | mul, a, b => Val.mul a b
  | div, a, b => Val.div a b

/-- The AST: `NumberNode`, `UnaryOperationNode` (the only unary operation
constructed is negation), `BinaryOperationNode`. -/
inductive Node
  | num (value : ℚ)
  | unary (right : Node)
  | binary (op : BinOp) (left : Node) (right : Node)
deriving DecidableEq, Repr

/-- `Node::eval`: numbers return their stored value, a unary node negates
its operand, a binary node evaluates left then right and applies its
operation. -/
def Node.eval : Node → Val
  | num v => Val.finite v
  | unary right => Val.neg right.eval
  | binary op left right => op.apply left.eval right.eval

/-- The mutable state of `engine::Tokenizer`. -/
structure Tokenizer where
  current_token : Token
  current_char : Nat
  number : ℚ
  position : Nat
  input : List Nat
deriving DecidableEq, Repr

/-- `Tokenizer::next_char`: read the byte at `position`, advance, and
store it as the current character, mapping negative `char` values (bytes
≥ 0x80) and out-of-range reads to the `'\0'` sentinel. -/
def Tokenizer.next_char (t : Tokenizer) : Tokenizer :=
  let symbol := t.input.getD t.position 0
  { t with
    position := t.position + 1
    current_char := if 128 ≤ symbol then 0 else symbol }

/-- The space-skipping loop at the top of `Tokenizer::next_token`. -/
def skip_spaces : Nat → Tokenizer → Tokenizer
  | 0, t => t
  | fuel + 1, t => if t.current_char = 32 then skip_spaces fuel t.next_char else t

/-- The numeric-scan loop of `Tokenizer::next_token`: consume a character
whenever it is a digit, or a dot while `is_decimal` is false; after each
consumed character `is_decimal` is reset to whether that character was a
dot. -/
def scan_number : Nat → Bool → List Nat → Tokenizer → List Nat × Tokenizer
  | 0, _, string_builder, t => (string_builder, t)
  | fuel + 1, is_decimal, string_builder, t =>
    if isdigit t.current_char || (!is_decimal && t.current_char = 46) then
      scan_number fuel (t.current_char = 46)
        (string_builder ++ [t.current_char]) t.next_char
    else (string_builder, t)

/-- `digitsToNat ds` is the natural number denoted by the digit
characters `ds`. -/
def digitsToNat (ds : List Nat) : Nat :=
  ds.foldl (fun acc d => acc * 10 + (d - 48)) 0

/-- `strtod`, restricted to the strings the scanner can build (digits and
dots): convert the longest prefix of the form `digits [ '.' digits ]`,
ignore the rest, and return 0 when no conversion is possible. -/
def strtod (s : List Nat) : ℚ :=
  let intPart := s.takeWhile fun c => isdigit c
  let rest := s.drop intPart.length
  let fracPart :=
    if rest.headD 0 = 46 then (rest.drop 1).takeWhile (fun c => isdigit c) else []
  (digitsToNat intPart : ℚ) + (digitsToNat fracPart : ℚ) / ((10 : ℚ) ^ fracPart.length)

/-- `Tokenizer::next_token`: skip spaces, classify the current character
(sentinel, single-character operator, numeric literal), and otherwise
fail with a lex error naming the character. -/
def Tokenizer.next_token (t0 : Tokenizer) : Except EvalError Tokenizer :=
  let t := skip_spaces (t0.input.length + 2) t0
  if t.current_char = 0 then
    .ok { t with current_token := Token.eof }
  else if t.current_char = 43 then
    .ok { t.next_char with current_token := Token.addition }
  else if t.current_char = 45 then
    .ok { t.next_char with current_token := Token.subtraction }
  else if t.current_char = 42 then
    .ok { t.next_char with current_token := Token.multiplication }
  else if t.current_char = 47 then
    .ok { t.next_char with current_token := Token.division }
  else if t.current_char = 40 then
    .ok { t.next_char with current_token := Token.opened_parentheses }
  else if t.current_char = 41 then
    .ok { t.next_char with current_token := Token.closed_parentheses }
  else if isdigit t.current_char || t.current_char = 46 then
    let scanned := scan_number (t.input.length + 2) false [] t
    .ok { scanned.2 with
          number := strtod scanned.1
          current_token := Token.number }
  else
    .error (EvalError.lexError t.current_char)

/-- `Tokenizer::set_input` (equivalently the `Tokenizer(std::string)`
constructor): reset the cursor and current character, store the input,
read the first character and scan the first token. -/
def Tokenizer.set_input (input : List Nat) : Except EvalError Tokenizer :=
  let t : Tokenizer :=
    { current_token := Token.number
      current_char := 1
      number := 0
      position := 0
      input := input }
  t.next_char.next_token

mutual

/-- `Parser::parse_addition_and_subtraction_operators`: parse a
multiplicative sub-expression, then left-fold `+`/`-` applications. -/
def parse_addition_and_subtraction_operators :
    Nat → Tokenizer → Except EvalError (Node × Tokenizer)
  | 0, _ => .error EvalError.outOfFuel
  | fuel + 1, t => do
    let (left_leaf, t) ← parse_multiplication_and_division_operators fuel t
    additive_loop fuel left_leaf t

/-- The `while (true)` loop of
`parse_addition_and_subtraction_operators`: while the current token is
`+` or `-`, consume it, parse the next multiplicative sub-expression and
fold it onto the left subtree. -/
def additive_loop : Nat → Node → Tokenizer → Except EvalError (Node × Tokenizer)
  | 0, _, _ => .error EvalError.outOfFuel
  | fuel + 1, left_leaf, t =>
    match t.current_token with
    | Token.addition => do
        let t ← t.next_token
        let (right_leaf, t) ← parse_multiplication_and_division_operators fuel t
        additive_loop fuel (Node.binary BinOp.add left_leaf right_leaf) t
    | Token.subtraction => do
        let t ← t.next_token
        let (right_leaf, t) ← parse_multiplication_and_division_operators fuel t
        additive_loop fuel (Node.binary BinOp.sub left_leaf right_leaf) t
    | _ => .ok (left_leaf, t)

/-- `Parser::parse_multiplication_and_division_operators`: parse a unary
sub-expression, then left-fold `*`/`/` applications. -/
def parse_multiplication_and_division_operators :
    Nat → Tokenizer → Except EvalError (Node × Tokenizer)
  | 0, _ => .error EvalError.outOfFuel
  | fuel + 1, t => do
    let (left, t) ← parse_unary_operator fuel t
    multiplicative_loop fuel left t

/-- The `while (true)` loop of
`parse_multiplication_and_division_operators`. -/
def multiplicative_loop : Nat → Node → Tokenizer → Except EvalError (Node × Tokenizer)
  | 0, _, _ => .error EvalError.outOfFuel
  | fuel + 1, left, t =>
    match t.current_token with
    | Token.multiplication => do
        let t ← t.next_token
        let (right, t) ← parse_unary_operator fuel t
        multiplicative_loop fuel (Node.binary BinOp.mul left right) t
    | Token.division => do
        let t ← t.next_token
        let (right, t) ← parse_unary_operator fuel t
        multiplicative_loop fuel (Node.binary BinOp.div left right) t
    | _ => .ok (left, t)

/-- `Parser::parse_unary_operator`: a leading `+` is consumed and
discarded, a leading `-` consumes the sign, parses the remainder and
wraps it in one unary negation node; anything else is a leaf. -/
def parse_unary_operator : Nat → Tokenizer → Except EvalError (Node × Tokenizer)
  | 0, _ => .error EvalError.outOfFuel
  | fuel + 1, t =>
    match t.current_token with
    | Token.addition => do
        let t ← t.next_token
        parse_unary_operator fuel t
    | Token.subtraction => do
        let t ← t.next_token
        let (right, t) ← parse_unary_operator fuel t
        .ok (Node.unary right, t)
    | _ => parse_leaf fuel t

/-- `Parser::parse_leaf`: a `Number` token becomes a leaf node, `(`
starts a parenthesized additive sub-expression that must be closed by
`)` (else `missingParenthesis`) and is returned with no wrapper node;
any other token is an `unexpectedToken` error. -/
def parse_leaf : Nat → Tokenizer → Except EvalError (Node × Tokenizer)
  | 0, _ => .error EvalError.outOfFuel
  | fuel + 1, t =>
    if t.current_token = Token.number then do
      let t2 ← t.next_token
      .ok (Node.num t.number, t2)
    else if t.current_token = Token.opened_parentheses then do
      let t2 ← t.next_token
      let (node, t3) ← parse_addition_and_subtraction_operators fuel t2
      if t3.current_token ≠ Token.closed_parentheses then
        .error EvalError.missingParenthesis
      else do
        let t4 ← t3.next_token
        .ok (node, t4)
    else
      .error (EvalError.unexpectedToken t.current_token)

end

/-- `Parser::parse_expression`: parse the top-level additive expression
and require that the token stream be fully consumed. -/
def parse_expression (fuel : Nat) (t : Tokenizer) :
    Except EvalError (Node × Tokenizer) := do
  let (expression, t) ← parse_addition_and_subtraction_operators fuel t
  if t.current_token ≠ Token.eof then .error EvalError.trailingInput
  else .ok (expression, t)

/-- Prime a tokenizer on the input and parse a complete expression,
returning the AST root.  The fuel is generous: each unit of parser fuel
pays for at least one consumed input character or one grammar level. -/
def parse_input (input : List Nat) : Except EvalError Node := do
  let t ← Tokenizer.set_input input
  let (node, _) ← parse_expression (8 * input.length + 16) t
  .ok node

/-- The engine's entry point (spec §6): prime, parse, evaluate. -/
def evaluate (input : List Nat) : Except EvalError Val :=
  (parse_input input).map Node.eval

/-- Byte values of an ASCII string, for readable concrete inputs. -/
def bytes (s : String) : List Nat :=
  s.toList.map Char.toNat

/-- If the current character is not a space, the space-skipping loop is
the identity, whatever the fuel. -/
theorem skip_spaces_of_not_space (fuel : Nat) (t : Tokenizer)
    (h : t.current_char ≠ 32) : skip_spaces fuel t = t := by
  cases fuel with
  | zero => rfl
  | succ n => simp [skip_spaces, h]

/-- C3: operators of equal precedence associate left-to-right: the
parser left-folds each new operator application onto the previously
built subtree, so `"10-5-2"` parses as `(10-5)-2` and evaluates to 3,
and `"10/20/2"` parses as `(10/20)/2` and evaluates to 1/4. -/
theorem left_associativity_of_equal_precedence :
    parse_input (bytes "10-5-2") =
      .ok (Node.binary BinOp.sub
            (Node.binary BinOp.sub (Node.num 10) (Node.num 5)) (Node.num 2)) ∧
    evaluate (bytes "10-5-2") = .ok (Val.finite 3) ∧
    parse_input (bytes "10/20/2") =
      .ok (Node.binary BinOp.div
            (Node.binary BinOp.div (Node.num 10) (Node.num 20)) (Node.num 2)) ∧
    evaluate (bytes "10/20/2") = .ok (Val.finite (1 / 4)) := by
  refine ⟨?_, ?_, ?_, ?_⟩ <;> with_unfolding_all rfl

/-- Binding a successful `Except` computation just applies the
continuation. -/
theorem except_bind_ok {ε α β : Type} (a : α) (f : α → Except ε β) :
    (Except.ok (ε := ε) a >>= f) = f a := rfl

/-- C4: multiplication and division bind tighter than addition and
subtraction, and a parenthesized sub-expression overrides precedence
without adding any AST node around the inner tree: `"10+20*30"` parses
with the product as the right operand of the sum and evaluates to 610,
while `"(10+20)*30"` parses with the bare sum as the left operand of the
product (no wrapper node) and evaluates to 900. -/
theorem precedence_and_parenthesized_grouping :
    parse_input (bytes "10+20*30") =
      .ok (Node.binary BinOp.add (Node.num 10)
            (Node.binary BinOp.mul (Node.num 20) (Node.num 30))) ∧
    evaluate (bytes "10+20*30") = .ok (Val.finite 610) ∧
    parse_input (bytes "(10+20)*30") =
      .ok (Node.binary BinOp.mul
            (Node.binary BinOp.add (Node.num 10) (Node.num 20)) (Node.num 30)) ∧
    evaluate (bytes "(10+20)*30") = .ok (Val.finite 900) := by
  refine ⟨?_, ?_, ?_, ?_⟩ <;> with_unfolding_all rfl

/-- C5: each leading unary `+` is consumed producing no AST node and
each leading `-` wraps the rest in exactly one negation node, so the
sign of the result is the parity of the count of `-` signs:
`"--++-+-10"` (four `-` signs) parses to four nested negations of the
leaf 10. -/
theorem unary_sign_parity :
    evaluate (bytes "-10") = .ok (Val.finite (-10)) ∧
    evaluate (bytes "+10") = .ok (Val.finite 10) ∧
    evaluate (bytes "--10") = .ok (Val.finite 10) ∧
    evaluate (bytes "--++-+-10") = .ok (Val.finite 10) ∧
    parse_input (bytes "--++-+-10") =
      .ok (Node.unary (Node.unary (Node.unary (Node.unary (Node.num 10))))) ∧
    parse_input (bytes "+10") = .ok (Node.num 10) := by
  refine ⟨?_, ?_, ?_, ?_, ?_, ?_⟩ <;> with_unfolding_all rfl

/-- C6: after the top-level additive expression is parsed, the token
stream must be at `eof`; whenever any token remains, `parse_expression`
fails with the trailing-input error and no result is produced, as for
`evaluate "1 2"`. -/
theorem trailing_input_error_after_expression :
    (∀ (fuel : Nat) (t t2 : Tokenizer) (e : Node),
      parse_addition_and_subtraction_operators fuel t = .ok (e, t2) →
      t2.current_token ≠ Token.eof →
      parse_expression fuel t = .error EvalError.trailingInput) ∧
    evaluate (bytes "1 2") = .error EvalError.trailingInput := by
  constructor
  · intro fuel t t2 e h hne
    simp [parse_expression, h, except_bind_ok, hne]
  · with_unfolding_all rfl

/-- Witness for C6 at the input `"1 2"`: instantiates the theorem at the
tokenizer state reached after priming on `"1 2"`, where the parsed
additive expression is the leaf 1 and the remaining token is the number
2. -/
theorem trailing_input_error_after_expression_witness :
    parse_expression 40
      { current_token := Token.number, current_char := 32, number := 1,
        position := 2, input := [49, 32, 50] } =
      .error EvalError.trailingInput :=
  trailing_input_error_after_expression.1 40
    { current_token := Token.number, current_char := 32, number := 1,
      position := 2, input := [49, 32, 50] }
    { current_token := Token.number, current_char := 0, number := 2,
      position := 4, input := [49, 32, 50] }
    (Node.num 1) (by with_unfolding_all rfl) (by decide)

/-- C7: whenever a `(` has been consumed and the additive sub-expression
parsed inside it is not followed by `)`, `parse_leaf` fails with the
missing-parenthesis error, as for `evaluate "(1+2"`. -/
theorem unclosed_parenthesis_error :
    (∀ (fuel : Nat) (t t2 t3 : Tokenizer) (node : Node),
      t.current_token = Token.opened_parentheses →
      t.next_token = .ok t2 →
      parse_addition_and_subtraction_operators fuel t2 = .ok (node, t3) →
      t3.current_token ≠ Token.closed_parentheses →
      parse_leaf (fuel + 1) t = .error EvalError.missingParenthesis) ∧
    evaluate (bytes "(1+2") = .error EvalError.missingParenthesis := by
  constructor
  · intro fuel t t2 t3 node htok hnext hparse hne
    simp [parse_leaf, htok, hnext, hparse, except_bind_ok, hne]
  · with_unfolding_all rfl

/-- Witness for C7 at the input `"(1+2"`: instantiates the theorem at
the tokenizer state reached after priming on `"(1+2"`, where the inner
additive expression is `1+2` and the remaining token is `eof`. -/
theorem unclosed_parenthesis_error_witness :
    parse_leaf 41
      { current_token := Token.opened_parentheses, current_char := 49,
        number := 0, position := 2, input := [40, 49, 43, 50] } =
      .error EvalError.missingParenthesis :=
  unclosed_parenthesis_error.1 40
    { current_token := Token.opened_parentheses, current_char := 49,
      number := 0, position := 2, input := [40, 49, 43, 50] }
    { current_token := Token.number, current_char := 43, number := 1,
      position := 3, input := [40, 49, 43, 50] }
    { current_token := Token.eof, current_char := 0, number := 2,
      position := 5, input := [40, 49, 43, 50] }
    (Node.binary BinOp.add (Node.num 1) (Node.num 2))
    (by decide) (by with_unfolding_all rfl) (by with_unfolding_all rfl) (by decide)

/-- C8: division by zero is never an error — `"1/0"` evaluates to
`+inf` (and `"-1/0"` to `-inf`, `"0/0"` to `NaN`) — and once parsing
succeeds, evaluation always produces an ordinary numeric result, so
floating-point special values propagate out of `evaluate` rather than
being turned into errors. -/
theorem division_by_zero_specials_propagate :
    evaluate (bytes "1/0") = .ok Val.posInf ∧
    evaluate (bytes "-1/0") = .ok Val.negInf ∧
    evaluate (bytes "0/0") = .ok Val.nan ∧
    (∀ (input : List Nat) (node : Node),
      parse_input input = .ok node → evaluate input = .ok node.eval) := by
  refine ⟨by with_unfolding_all rfl, by with_unfolding_all rfl, by with_unfolding_all rfl, ?_⟩
  intro input node h
  simp [evaluate, h, Except.map]

/-- Witness for C8: instantiates the propagation statement on the parse
of `"1/0"`, whose AST is the division node `1 / 0`. -/
theorem division_by_zero_specials_propagate_witness :
    evaluate (bytes "1/0") =
      .ok (Node.binary BinOp.div (Node.num 1) (Node.num 0)).eval :=
  division_by_zero_specials_propagate.2.2.2 (bytes "1/0")
    (Node.binary BinOp.div (Node.num 1) (Node.num 0))
    (by with_unfolding_all rfl)

/-- C10: a lone `.` with no adjacent digits is accepted as a numeric
literal: the scanner enters the number branch on `.`, consumes it, and
the `strtod` conversion of the text `"."` yields 0, so `evaluate "."`
succeeds with 0 rather than failing with a lex error. -/
theorem lone_dot_evaluates_to_zero :
    evaluate (bytes ".") = .ok (Val.finite 0) ∧
    parse_input (bytes ".") = .ok (Node.num 0) ∧
    strtod [46] = 0 := by
  refine ⟨?_, ?_, ?_⟩ <;> with_unfolding_all rfl

/-- C1 fails as stated: for `"1.2.3"` the numeric scan consumes the
second `.` (the decimal flag was reset by the digit 2), the whole text
becomes one numeric token, and `evaluate` succeeds with `strtod`'s
longest-prefix conversion 1.2 = 6/5 — there is no lex error. -/
theorem second_dot_lexes_counterexample :
    evaluate (bytes "1.2.3") = .ok (Val.finite (6 / 5)) := by
  with_unfolding_all rfl

/-- C1 (amended): the scanner's decimal flag is reset by every consumed
character, so a second `.` is consumed whenever the previously consumed
character was a digit — `"1.2.3"` is scanned as the single numeric token
`1.2.3`, converted by `strtod` to its longest valid prefix 1.2, and
`evaluate` succeeds. Only immediately consecutive dots stop the scan,
and the leftover `.` then starts a new numeric token rather than
failing lexing: `"1..5"` lexes as 1 followed by 0.5 and fails with the
trailing-input error, never with a lex error. -/
theorem second_dot_scan_amended :
    evaluate (bytes "1.2.3") = .ok (Val.finite (6 / 5)) ∧
    strtod (bytes "1.2.3") = 6 / 5 ∧
    evaluate (bytes "1..5") = .error EvalError.trailingInput := by
  refine ⟨?_, ?_, ?_⟩ <;> with_unfolding_all rfl

/-- C2 fails as stated: `"1 2@"` contains `@`, a character outside the
accepted set, yet `evaluate` fails with the trailing-input error rather
than a lex error — the pull-based lexer never scans the `@`. -/
theorem invalid_char_other_error_counterexample :
    evaluate (bytes "1 2@") = .error EvalError.trailingInput := by
  with_unfolding_all rfl

/-- C2 (amended): whenever the tokenizer scans a token starting at a
character that is none of the sentinel, space, the operators, the
parentheses, a digit, or `.`, it fails with a lex error recording that
character (the code prints the character; no position is reported), as
happens at the `@` of `evaluate "1@2"`. -/
theorem lex_error_at_scanned_invalid_char :
    (∀ t : Tokenizer,
      t.current_char ≠ 0 → t.current_char ≠ 32 → t.current_char ≠ 43 →
      t.current_char ≠ 45 → t.current_char ≠ 42 → t.current_char ≠ 47 →
      t.current_char ≠ 40 → t.current_char ≠ 41 →
      isdigit t.current_char = false → t.current_char ≠ 46 →
      t.next_token = .error (EvalError.lexError t.current_char)) ∧
    evaluate (bytes "1@2") = .error (EvalError.lexError 64) := by
  constructor
  · intro t h0 h32 h43 h45 h42 h47 h40 h41 hd h46
    have hs : skip_spaces (t.input.length + 2) t = t :=
      skip_spaces_of_not_space _ t h32
    simp [Tokenizer.next_token, hs, h0, h43, h45, h42, h47, h40, h41, hd, h46]
  · with_unfolding_all rfl

/-- Witness for C2 at the input `"1@2"`: the tokenizer state reached
after scanning the leading 1 has current character `@` (64), and
scanning the next token from it yields the lex error recording 64. -/
theorem lex_error_at_scanned_invalid_char_witness :
    Tokenizer.next_token
      { current_token := Token.number, current_char := 64, number := 1,
        position := 2, input := [49, 64, 50] } =
      .error (EvalError.lexError 64) :=
  lex_error_at_scanned_invalid_char.1
    { current_token := Token.number, current_char := 64, number := 1,
      position := 2, input := [49, 64, 50] }
    (by decide) (by decide) (by decide) (by decide) (by decide) (by decide)
    (by decide) (by decide) (by decide) (by decide)

/-- C9 fails as stated: the input `(` followed by the byte 0x80 contains
a non-ASCII byte, and `evaluate` does fail — with the error of the
preceding prefix `"("` — rather than returning a value. -/
theorem non_ascii_prefix_error_counterexample :
    evaluate [40, 128] = .error (EvalError.unexpectedToken Token.eof) := by
  with_unfolding_all rfl

/-- C9 (amended): any byte ≥ 0x80 is replaced by the end-of-input
sentinel when read, so lexing stops there, the byte and everything
after it are silently ignored, and `evaluate` behaves exactly as on the
preceding prefix: it returns the prefix's value when the prefix parses
(`"1"` + 0x80 + `"2"` evaluates to 1), and the prefix's own error
otherwise. -/
theorem non_ascii_byte_truncates_input :
    (∀ t : Tokenizer, 128 ≤ t.input.getD t.position 0 →
      t.next_char.current_char = 0) ∧
    evaluate [49, 128, 50] = .ok (Val.finite 1) ∧
    evaluate [49, 128, 50] = evaluate (bytes "1") ∧
    evaluate [40, 128] = evaluate (bytes "(") := by
  refine ⟨?_, ?_, ?_, ?_⟩
  · intro t h
    simp only [Tokenizer.next_char]
    rw [if_pos h]
  · with_unfolding_all rfl
  · have h1 : evaluate [49, 128, 50] = .ok (Val.finite 1) := by with_unfolding_all rfl
    have h2 : evaluate (bytes "1") = .ok (Val.finite 1) := by with_unfolding_all rfl
    exact h1.trans h2.symm
  · have h1 : evaluate [40, 128] = .error (EvalError.unexpectedToken Token.eof) := by
      with_unfolding_all rfl
    have h2 : evaluate (bytes "(") = .error (EvalError.unexpectedToken Token.eof) := by
      with_unfolding_all rfl
    exact h1.trans h2.symm

/-- Witness for C9: reading the byte 0x80 itself sets the current
character to the sentinel 0. -/
theorem non_ascii_byte_truncates_input_witness :
    (Tokenizer.next_char
      { current_token := Token.number, current_char := 1, number := 0,
        position := 0, input := [128] }).current_char = 0 :=
  non_ascii_byte_truncates_input.1
    { current_token := Token.number, current_char := 1, number := 0,
      position := 0, input := [128] }
    (by decide)
